import Mathlib

/-!
Verification development for the wayang NER knowledge-graph repository.

Shallow embedding of the Python sources:
  - `src/graph_builder.py`   (class KnowledgeGraph)
  - `src/relation_extraction.py` (class RelationExtractor)
  - `src/visualization.py`   (GraphVisualizer.visualize_entity_direct_relations)

Modelling conventions:
  - `networkx.DiGraph` is modelled as an insertion-ordered list of nodes and an
    insertion-ordered list of directed edges, each carrying its attribute
    dictionary as record fields.  Node attributes `type` and `count` are
    `Option`-valued because networkx nodes may lack an attribute (e.g. nodes
    implicitly created by `add_edge`); `data.get(key, default)` is `Option.getD`.
  - Python floats that only ever hold small decimal constants (confidences,
    density) are modelled as `Rat`.
  - Python string primitives are modelled over the character list of the
    string so that they evaluate inside the kernel: `pyStrip` is `str.strip()`,
    `pyLower` is `str.lower()`, `pySplitDot` is `str.split` on a dot,
    `pyContains hay needle` is the Python substring test `needle in hay`.
  - The float thresholds `* 0.7` and `* 0.3` are modelled by the exact rational
    comparisons `10 * a >= 7 * b` and `10 * a < 3 * b`; the Python doubles
    `0.7` and `0.3` differ from the exact rationals by less than `6e-17`,
    which does not change any comparison appearing in this development.
-/

/-- Python `str.strip()`: remove leading and trailing whitespace. -/
def pyStrip (s : String) : String :=
  ⟨((s.data.dropWhile Char.isWhitespace).reverse.dropWhile Char.isWhitespace).reverse⟩

/-- Python `str.lower()`. -/
def pyLower (s : String) : String :=
  ⟨s.data.map Char.toLower⟩

/-- Python `text.split('.')`. -/
def pySplitDot (s : String) : List String :=
  (s.data.splitOn '.').map (fun cs => ⟨cs⟩)

/-- Python substring test `needle in hay`. -/
def pyContains (hay needle : String) : Bool :=
  hay.data.tails.any (fun t => needle.data.isPrefixOf t)

/-- Python `len` on a string (number of characters). -/
def pyLen (s : String) : Nat := s.data.length

/-- A networkx node of `KnowledgeGraph.graph`: its id plus the attribute dict
written by `add_entity` / `from_json` (`type`, `count`).  Attributes are
optional because a bare `add_edge` can create nodes with no attributes. -/
structure KGNode where
  id : String
  type : Option String
  count : Option Nat
deriving DecidableEq, Repr

/-- A networkx edge of `KnowledgeGraph.graph`: the ordered endpoint pair plus
the attribute dict written by `add_relation` / `from_json`
(`relations`, `count`, `confidence`). -/
structure KGEdge where
  source : String
  target : String
  relations : List String
  count : Nat
  confidence : Rat
deriving DecidableEq, Repr

/-- The `KnowledgeGraph` state: `self.graph` as insertion-ordered node and edge
lists.  (`entity_metadata` / `relation_metadata` are not modelled: no claim
observes them — they are never exported by `to_json`, are cleared by
`from_json`, and `get_statistics` does not read them.)

networkx iterates edges grouped by source-node insertion order; we model the
edge store as a single insertion-ordered list.  Every property proved below is
insensitive to this enumeration-order choice. -/
structure Graph where
  nodes : List KGNode
  edges : List KGEdge
deriving DecidableEq, Repr

/-- The empty graph (`KnowledgeGraph.__init__`). -/
def Graph.empty : Graph := { nodes := [], edges := [] }

/-- `self.graph.has_node(x)`. -/
def Graph.hasNode (g : Graph) (x : String) : Bool :=
  g.nodes.any (fun nd => nd.id == x)

/-- `self.graph.has_edge(s, t)`. -/
def Graph.hasEdge (g : Graph) (s t : String) : Bool :=
  g.edges.any (fun e => e.source == s && e.target == t)

/-- The node stored under id `x`, if any. -/
def Graph.findNode (g : Graph) (x : String) : Option KGNode :=
  g.nodes.find? (fun nd => nd.id == x)

/-- The edge stored under the ordered pair `(s, t)`, if any. -/
def Graph.edgeBetween (g : Graph) (s t : String) : Option KGEdge :=
  g.edges.find? (fun e => e.source == s && e.target == t)

/-- `KnowledgeGraph.add_entity` (graph_builder.py lines 43-70).
Strips the name; if the node exists it overwrites `type` with the new value
and increments `count` (`self.graph.nodes[name]['count'] = .get('count', 0) + 1`),
else it adds a fresh node with `count = 1`.  (The `metadata` parameter only
feeds `entity_metadata`, which is not modelled.) -/
def Graph.addEntity (g : Graph) (entityName entityType : String) : Graph :=
  let entityName := pyStrip entityName
  if g.hasNode entityName then
    { g with nodes := g.nodes.map (fun nd =>
        if nd.id == entityName then
          { nd with type := some entityType, count := some (nd.count.getD 0 + 1) }
        else nd) }
  else
    { g with nodes := g.nodes ++ [{ id := entityName, type := some entityType, count := some 1 }] }

/-- The endpoint-ensuring step of `add_relation`:
`if not self.graph.has_node(x): self.add_entity(x, 'UNKNOWN')`.  The name
passed is already stripped, so the internal `strip()` of `add_entity` is a
no-op and the no-node branch of `add_entity` is inlined. -/
def ensureNode (g : Graph) (x : String) : Graph :=
  if g.hasNode x then g else
    { g with nodes := g.nodes ++ [{ id := x, type := some "UNKNOWN", count := some 1 }] }

/-- `KnowledgeGraph.add_relation` (graph_builder.py lines 72-117).
Strips both names; ensures both endpoints exist; then either updates the
existing `(subject, obj)` edge — appending the relation type and
incrementing `count` only when the type is new — or adds a fresh edge.
(`relation_metadata` is not modelled.) -/
def Graph.addRelation (g : Graph) (subject relationType obj : String)
    (confidence : Rat) : Graph :=
  let subject := pyStrip subject
  let obj := pyStrip obj
  let g2 := ensureNode (ensureNode g subject) obj
  if g2.hasEdge subject obj then
    { g2 with edges := g2.edges.map (fun e =>
        if e.source == subject && e.target == obj then
          if e.relations.contains relationType then e
          else { e with relations := e.relations ++ [relationType], count := e.count + 1 }
        else e) }
  else
    { g2 with edges := g2.edges ++
        [{ source := subject, target := obj, relations := [relationType],
           count := 1, confidence := confidence }] }

example :
    Graph.empty.addEntity "Arjuna" "PERSON" =
      { nodes := [{ id := "Arjuna", type := some "PERSON", count := some 1 }], edges := [] } := by
  decide

example :
    ((Graph.empty.addEntity "Arjuna" "PERSON").addEntity "Arjuna" "ORG").findNode "Arjuna" =
      some { id := "Arjuna", type := some "ORG", count := some 2 } := by
  decide

example :
    (Graph.empty.addRelation "A" "r" "A" 1).edgeBetween "A" "A" =
      some { source := "A", target := "A", relations := ["r"], count := 1, confidence := 1 } := rfl

/-- Key list of a Python `Counter`/`dict` in first-encounter order. -/
def keysInOrder (l : List String) : List String :=
  (l.reverse.dedup).reverse

/-- `collections.Counter(l)` as an association list in key-insertion order. -/
def counter (l : List String) : List (String × Nat) :=
  (keysInOrder l).map (fun k => (k, l.count k))

/-- Total degree (in + out) of node `x` given the edge list
(`self.graph.degree()`: a self-loop counts twice). -/
def degreeIn (edges : List KGEdge) (x : String) : Nat :=
  (edges.filter (fun e => e.source == x)).length +
    (edges.filter (fun e => e.target == x)).length

/-- Stable insertion of a `(node, degree)` pair into a descending-by-degree
list: the new pair goes after every earlier pair of equal or larger degree,
matching Python `sorted(..., key=lambda x: x[1], reverse=True)` stability. -/
def insertDegDesc (p : String × Nat) : List (String × Nat) → List (String × Nat)
  | [] => [p]
  | q :: qs => if p.2 < q.2 then q :: insertDegDesc p qs else p :: q :: qs

/-- Stable descending sort by degree. -/
def sortDegDesc : List (String × Nat) → List (String × Nat)
  | [] => []
  | p :: ps => insertDegDesc p (sortDegDesc ps)

/-- One expansion step of the undirected reachability used by
`networkx.is_weakly_connected`: a frontier set plus all direct successors and
predecessors of its members, deduplicated. -/
def reachStep (edges : List KGEdge) (s : List String) : List String :=
  keysInOrder (s ++ s.flatMap (fun x =>
    (edges.filter (fun e => e.source == x)).map (fun e => e.target) ++
      (edges.filter (fun e => e.target == x)).map (fun e => e.source)))

/-- Iterated expansion with fuel. -/
def reachN (edges : List KGEdge) : Nat → List String → List String
  | 0, s => s
  | k + 1, s => reachN edges k (reachStep edges s)

/-- `networkx.is_weakly_connected(self.graph)`: every node is reachable from
the first node through edges taken in either direction.  `nodes.length` steps
of expansion reach the full weakly connected component.  networkx raises
`NetworkXPointlessConcept` on the null graph; that error is modelled as
`none`. -/
def weaklyConnected (nodes : List KGNode) (edges : List KGEdge) : Option Bool :=
  match nodes with
  | [] => none
  | nd :: _ =>
    let reach := reachN edges nodes.length [nd.id]
    some (nodes.all (fun n2 => reach.contains n2.id))

/-- The dictionary returned by `KnowledgeGraph.get_statistics`
(graph_builder.py lines 159-189).  Distributions and the top-entity list are
association lists in the iteration order the Python code produces. -/
structure Stats where
  total_nodes : Nat
  total_edges : Nat
  density : Rat
  is_connected : Bool
  entity_type_distribution : List (String × Nat)
  relation_type_distribution : List (String × Nat)
  top_entities : List (String × Nat)
deriving DecidableEq, Repr

/-- The `get_statistics` dictionary as a function of the node list, the edge
list and the result of the `is_weakly_connected` call.
  - `density`: `nx.density` = `m / (n * (n - 1))` for a DiGraph, `0` when
    `m = 0` or `n <= 1`;
  - `entity_type_distribution`: `Counter` of the `type` attribute of the
    nodes that have one (`nx.get_node_attributes(graph, 'type')`);
  - `relation_type_distribution`: `Counter` over every relation label of
    every edge;
  - `top_entities`: nodes with total degree, sorted descending (stable, so
    ties break by node insertion order), first 10. -/
def statsWith (nodes : List KGNode) (edges : List KGEdge) (conn : Bool) : Stats :=
  { total_nodes := nodes.length
    total_edges := edges.length
    density :=
      if edges.length = 0 ∨ nodes.length ≤ 1 then 0
      else (edges.length : Rat) / ((nodes.length : Rat) * ((nodes.length : Rat) - 1))
    is_connected := conn
    entity_type_distribution := counter (nodes.filterMap (fun nd => nd.type))
    relation_type_distribution := counter (edges.flatMap (fun e => e.relations))
    top_entities := (sortDegDesc (nodes.map (fun nd => (nd.id, degreeIn edges nd.id)))).take 10 }

/-- `KnowledgeGraph.get_statistics` (graph_builder.py lines 159-189).  The
call to `nx.is_weakly_connected` inside the dict literal raises
`NetworkXPointlessConcept` on the null graph, so on a graph with no nodes
`get_statistics` raises instead of returning a dictionary: `none`. -/
def Graph.getStatistics (g : Graph) : Option Stats :=
  match weaklyConnected g.nodes g.edges with
  | none => none
  | some conn => some (statsWith g.nodes g.edges conn)

/-- One entry of the `nodes` array of the canonical JSON graph document.
Every field is optional: `from_json` raises `KeyError` on a missing `id` and
defaults the rest via `.get`. -/
structure JNode where
  id : Option String
  label : Option String
  type : Option String
  count : Option Nat
deriving DecidableEq, Repr

/-- One entry of the `edges` array of the canonical JSON graph document. -/
structure JEdge where
  source : Option String
  target : Option String
  relations : Option (List String)
  count : Option Nat
  confidence : Option Rat
deriving DecidableEq, Repr

/-- A parsed JSON graph document.  The top-level keys are optional as well:
`graph_data['nodes']` / `graph_data['edges']` raise `KeyError` when absent. -/
structure JDoc where
  nodes : Option (List JNode)
  edges : Option (List JEdge)
  statistics : Option Stats
deriving DecidableEq, Repr

/-- `KnowledgeGraph.to_json` (graph_builder.py lines 292-335), data part
(writing the file is I/O and not modelled).  The `graph_data` dict literal
calls `self.get_statistics()`, which raises on the null graph; in that case
`to_json` itself raises and produces no document: `none`. -/
def Graph.toJson (g : Graph) : Option JDoc :=
  match g.getStatistics with
  | none => none
  | some st =>
    some
      { nodes := some (g.nodes.map (fun nd =>
          { id := some nd.id, label := some nd.id,
            type := some (nd.type.getD "UNKNOWN"), count := some (nd.count.getD 0) }))
        edges := some (g.edges.map (fun e =>
          { source := some e.source, target := some e.target,
            relations := some e.relations, count := some e.count,
            confidence := some e.confidence }))
        statistics := some st }

/-- Outcome of `from_json`: either the fully loaded graph, or the graph state
at the moment the `KeyError` escaped (the Python object keeps that partial
state, since the exception propagates out of the mutating loop). -/
inductive LoadResult where
  | ok (g : Graph)
  | err (g : Graph)
deriving DecidableEq, Repr

/-- `self.graph.add_node(id, type=..., count=...)` as used by `from_json`:
updates the attributes if the node exists, else appends it. -/
def Graph.nxAddNode (g : Graph) (i ty : String) (c : Nat) : Graph :=
  if g.hasNode i then
    { g with nodes := g.nodes.map (fun nd =>
        if nd.id == i then { nd with type := some ty, count := some c } else nd) }
  else
    { g with nodes := g.nodes ++ [{ id := i, type := some ty, count := some c }] }

/-- `self.graph.add_edge(s, t, relations=..., count=..., confidence=...)` as
used by `from_json`: implicitly creates missing endpoint nodes (with no
attributes), then updates the existing `(s, t)` edge attributes or appends a
new edge. -/
def Graph.nxAddEdge (g : Graph) (s t : String) (rels : List String)
    (c : Nat) (conf : Rat) : Graph :=
  let g1 := if g.hasNode s then g else
    { g with nodes := g.nodes ++ [{ id := s, type := none, count := none }] }
  let g2 := if g1.hasNode t then g1 else
    { g1 with nodes := g1.nodes ++ [{ id := t, type := none, count := none }] }
  if g2.hasEdge s t then
    { g2 with edges := g2.edges.map (fun e =>
        if e.source == s && e.target == t then
          { e with relations := rels, count := c, confidence := conf }
        else e) }
  else
    { g2 with edges := g2.edges ++
        [{ source := s, target := t, relations := rels, count := c, confidence := conf }] }

/-- The node-loading loop of `from_json`: `node['id']` raises `KeyError` when
missing (carrying the state mutated so far); `type` and `count` default. -/
def loadNodes : Graph → List JNode → LoadResult
  | g, [] => .ok g
  | g, jn :: rest =>
    match jn.id with
    | none => .err g
    | some i => loadNodes (g.nxAddNode i (jn.type.getD "UNKNOWN") (jn.count.getD 0)) rest

/-- The edge-loading loop of `from_json`: `edge['source']` / `edge['target']`
raise `KeyError` when missing; `relations`, `count`, `confidence` default. -/
def loadEdges : Graph → List JEdge → LoadResult
  | g, [] => .ok g
  | g, je :: rest =>
    match je.source, je.target with
    | some s, some t =>
        loadEdges (g.nxAddEdge s t (je.relations.getD []) (je.count.getD 0)
          (je.confidence.getD 1)) rest
    | _, _ => .err g

/-- `KnowledgeGraph.from_json` (graph_builder.py lines 337-366), data part.
The method first clears the existing graph (`self.graph.clear()` plus the
metadata dicts), then replays nodes and edges from the document; the previous
state `gPrev` is discarded unconditionally.  The embedded `statistics` block
is ignored. -/
def fromJson (gPrev : Graph) (doc : JDoc) : LoadResult :=
  match doc.nodes with
  | none => .err Graph.empty
  | some jns =>
    match loadNodes Graph.empty jns with
    | .err gf => .err gf
    | .ok g1 =>
      match doc.edges with
      | none => .err g1
      | some jes => loadEdges g1 jes

/-- Direct successors of `x` in adjacency insertion order
(`self.graph.successors(x)`). -/
def Graph.successors (g : Graph) (x : String) : List String :=
  (g.edges.filter (fun e => e.source == x)).map (fun e => e.target)

/-- Direct predecessors of `x` (`self.graph.predecessors(x)`). -/
def Graph.predecessors (g : Graph) (x : String) : List String :=
  (g.edges.filter (fun e => e.target == x)).map (fun e => e.source)

/-- The pyvis network produced by
`GraphVisualizer.visualize_entity_direct_relations`
(visualization.py lines 409-519), reduced to its node-id list and directed
edge-pair list (titles, colors, sizes and the HTML output are rendering
detail).  `nodes` is the central entity followed by the neighbor set
`successors ∪ predecessors` (a Python `set`; modelled in first-encounter
order); `edges` are exactly the outgoing edges `center → neighbor` followed by
the incoming edges `neighbor → center`. -/
structure EgoView where
  nodes : List String
  edges : List (String × String)
deriving DecidableEq, Repr

/-- `visualize_entity_direct_relations(kg, entity_name)`: returns `None` when
the entity is absent, otherwise the 1-level ego network described above. -/
def egoView (g : Graph) (entityName : String) : Option EgoView :=
  if g.hasNode entityName then
    some
      { nodes := entityName :: keysInOrder (g.successors entityName ++ g.predecessors entityName)
        edges :=
          (g.successors entityName).map (fun nb => (entityName, nb)) ++
            (g.predecessors entityName).map (fun nb => (nb, entityName)) }
  else none

/-- An extracted entity as consumed by `RelationExtractor`
(`{'text': ..., 'type': ...}`; the `start`/`end` offsets are never read by the
functions modelled here). -/
structure Entity where
  text : String
  type : String
deriving DecidableEq, Repr

/-- One regex match produced by `re.finditer` inside
`RelationExtractor.extract_relations_from_text`: the relation type whose
pattern fired, the two captured groups after `.strip()`, and the whole
matched text `match.group(0)`.  The regex engine itself (Python `re` over the
pattern table of `_init_relation_patterns`) is the external producer of these
values; concrete theorems instantiate the list with the matches the patterns
yield on the concrete text. -/
structure PatternMatch where
  relationType : String
  subjectText : String
  objectText : String
  context : String
deriving DecidableEq, Repr

/-- A relation dict as produced by `RelationExtractor`.  The `dynamic_label`
field is omitted: `dynamic_relation_labeler` is not importable from the
source directory (the module lives only under `archived/`), so
`DYNAMIC_LABELER_AVAILABLE` is `False` and the field is always `None`. -/
structure Relation where
  subject : String
  subjectType : String
  relation : String
  object : String
  objectType : String
  context : String
  confidence : Rat
deriving DecidableEq, Repr

/-- `RelationExtractor._find_entity` (relation_extraction.py lines 358-384).
First pass: exact case-insensitive match.  Second pass: substring containment
in either direction, accepted only when
`len(entity_lower) >= len(text_lower) * 0.7` — the CANDIDATE entity must be at
least 70 percent as long as the matched text (`0.7` written as the exact
rational `7/10`); a candidate failing the length test is skipped and the scan
continues. -/
def findEntity (text : String) (entities : List Entity) : Option Entity :=
  let textLower := pyLower text
  match entities.find? (fun e => pyLower e.text == textLower) with
  | some e => some e
  | none =>
    entities.find? (fun e =>
      let entityLower := pyLower e.text
      (pyContains entityLower textLower || pyContains textLower entityLower) &&
        decide (10 * pyLen entityLower ≥ 7 * pyLen textLower))

/-- The match-processing loop of
`RelationExtractor.extract_relations_from_text` (lines 240-279): for each
match, resolve both captured spans with `_find_entity`; if both resolve —
with no check that they differ — emit a relation with confidence `0.8`. -/
def relationsFromMatches (ms : List PatternMatch) (entities : List Entity) :
    List Relation :=
  ms.filterMap (fun m =>
    match findEntity m.subjectText entities, findEntity m.objectText entities with
    | some se, some oe =>
        some { subject := se.text, subjectType := se.type, relation := m.relationType,
               object := oe.text, objectType := oe.type, context := m.context,
               confidence := (0.8 : Rat) }
    | _, _ => none)

/-- The deduplication key `(subject.lower(), relation, object.lower())`. -/
def dedupKey (r : Relation) : String × String × String :=
  (pyLower r.subject, r.relation, pyLower r.object)

/-- `RelationExtractor._deduplicate_relations` (lines 386-411): first-seen
relation wins. -/
def dedupAux (seen : List (String × String × String)) :
    List Relation → List Relation
  | [] => []
  | r :: rest =>
    if seen.contains (dedupKey r) then dedupAux seen rest
    else r :: dedupAux (dedupKey r :: seen) rest

/-- `RelationExtractor._deduplicate_relations`. -/
def deduplicateRelations (rs : List Relation) : List Relation :=
  dedupAux [] rs

/-- `RelationExtractor.extract_relations_from_text` = pattern loop followed by
deduplication. -/
def extractRelationsFromText (ms : List PatternMatch) (entities : List Entity) :
    List Relation :=
  deduplicateRelations (relationsFromMatches ms entities)

/-- The `self.reverse_relations` table (relation_extraction.py lines 44-54). -/
def reverseRelationOf (r : String) : Option String :=
  if r == "child_of" then some "parent_of"
  else if r == "parent_of" then some "child_of"
  else if r == "married_to" then some "married_to"
  else if r == "sibling_of" then some "sibling_of"
  else if r == "fought_with" then some "fought_with"
  else if r == "killed_by" then some "killed"
  else if r == "killed" then some "killed_by"
  else if r == "ruled_in" then some "ruled_by"
  else if r == "ruled_by" then some "ruled_in"
  else none

/-- `RelationExtractor._add_reverse_relations` (lines 313-356): for every
relation whose type has a configured inverse DIFFERENT from itself, append
the swapped triple under the inverse label; symmetric relation types
(`married_to`, `sibling_of`, `fought_with`) produce nothing. -/
def addReverseRelations (rs : List Relation) : List Relation :=
  rs ++ rs.filterMap (fun r =>
    match reverseRelationOf r.relation with
    | some rev =>
        if r.relation != rev then
          some { subject := r.object, subjectType := r.objectType, relation := rev,
                 object := r.subject, objectType := r.subjectType,
                 context := r.context, confidence := r.confidence }
        else none
    | none => none)

/-- Ordered pairs `(e_i, e_j)` with `i < j`, as produced by
`for i, e1 in enumerate(lst[:-1]): for e2 in lst[i+1:]`. -/
def orderedPairs : List Entity → List (Entity × Entity)
  | [] => []
  | e :: rest => rest.map (fun e2 => (e, e2)) ++ orderedPairs rest

/-- The relation-type inference of `_extract_proximity_relations`
(lines 440-454): defaults to `associated_with`, refined by the entity-type
pair and connective words in the sentence. -/
def proximityRelationType (sentenceLower : String) (e1 e2 : Entity) : String :=
  if e1.type == "PERSON" && e2.type == "PERSON" then
    if ["bersama", "dengan", "dan"].any (fun w => pyContains sentenceLower w) then
      "associated_with"
    else "associated_with"
  else if e1.type == "PERSON" && e2.type == "LOC" then
    if ["di", "ke", "dari"].any (fun w => pyContains sentenceLower w) then
      "located_in"
    else "associated_with"
  else if e1.type == "PERSON" && e2.type == "EVENT" then
    if ["dalam", "saat", "ketika"].any (fun w => pyContains sentenceLower w) then
      "participated_in"
    else "associated_with"
  else if e1.type == "PERSON" && e2.type == "ORG" then "member_of"
  else "associated_with"

/-- `RelationExtractor._extract_proximity_relations` (lines 413-477): for each
sentence (split on dots) containing at least two PERSON entities and one of
the connective words, emit a confidence-`0.5` relation for every ordered
entity pair. -/
def extractProximityRelations (text : String) (entities : List Entity) :
    List Relation :=
  let personEntities := entities.filter (fun e => e.type == "PERSON")
  (pySplitDot text).flatMap (fun sentence =>
    let sentenceLower := pyLower sentence
    let sentenceEntities :=
      personEntities.filter (fun e => pyContains sentenceLower (pyLower e.text))
    if sentenceEntities.length ≥ 2 &&
        ["dan", "dengan", "bersama"].any (fun w => pyContains sentenceLower w) then
      (orderedPairs sentenceEntities).map (fun p =>
        { subject := p.1.text, subjectType := p.1.type,
          relation := proximityRelationType sentenceLower p.1 p.2,
          object := p.2.text, objectType := p.2.type,
          context := pyStrip sentence, confidence := (0.5 : Rat) })
    else [])

/-- `RelationExtractor.extract_relations_from_entities` (lines 286-311):
pattern extraction, reverse derivation, the sparsity-guarded proximity
fallback (`len(relations) < len(entities) * 0.3`, i.e.
`10 * len(relations) < 3 * len(entities)`), final deduplication. -/
def extractRelationsFromEntities (ms : List PatternMatch) (text : String)
    (entities : List Entity) : List Relation :=
  let relations := extractRelationsFromText ms entities
  let relations := addReverseRelations relations
  let relations :=
    if 10 * relations.length < 3 * entities.length then
      relations ++ extractProximityRelations text entities
    else relations
  deduplicateRelations relations

/-- A sequence of `add_entity` calls for one name, starting from a fresh
graph: `addMany n [t1, ..., tk]` is
`kg.add_entity(n, t1); ...; kg.add_entity(n, tk)` on a new `KnowledgeGraph`. -/
def addMany (n : String) (ts : List String) : Graph :=
  ts.foldl (fun g t => Graph.addEntity g n t) Graph.empty

/-- Graphs reachable through the public mutating API
(`add_entity` / `add_relation` on a fresh `KnowledgeGraph`). -/
inductive Built : Graph → Prop where
  | empty : Built Graph.empty
  | addEntity (g : Graph) (n t : String) : Built g → Built (g.addEntity n t)
  | addRelation (g : Graph) (s r o : String) (c : Rat) :
      Built g → Built (g.addRelation s r o c)

/-- Structural well-formedness maintained by the public API: node ids are
unique, edges join existing nodes, at most one edge per ordered node pair,
and every node carries `type` and `count` attributes. -/
structure WF (g : Graph) : Prop where
  nodupIds : (g.nodes.map KGNode.id).Nodup
  endpoints : ∀ e ∈ g.edges, g.hasNode e.source = true ∧ g.hasNode e.target = true
  nodupPairs : (g.edges.map (fun e => (e.source, e.target))).Nodup
  attrs : ∀ nd ∈ g.nodes, nd.type.isSome ∧ nd.count.isSome

/-! ## Generic lookup lemmas -/

theorem getLast?_cons_eq : ∀ (ts : List String) (t : String),
    (t :: ts).getLast? = some (ts.getLastD t)
  | [], _ => rfl
  | v :: vs, u => by
    rw [List.getLast?_cons_cons, getLast?_cons_eq vs v, List.getLastD_cons]

theorem find?_map_pred {α : Type} (f : α → α) (p : α → Bool)
    (hf : ∀ a, p (f a) = p a) :
    ∀ l : List α, (l.map f).find? p = (l.find? p).map f
  | [] => rfl
  | a :: l => by
    simp only [List.map_cons, List.find?_cons, hf a]
    cases h : p a <;> simp [find?_map_pred f p hf l]

theorem hasNode_iff (g : Graph) (x : String) :
    g.hasNode x = true ↔ ∃ nd ∈ g.nodes, nd.id = x := by
  simp [Graph.hasNode, List.any_eq_true]

theorem hasEdge_iff (g : Graph) (s t : String) :
    g.hasEdge s t = true ↔ ∃ e ∈ g.edges, e.source = s ∧ e.target = t := by
  simp [Graph.hasEdge, List.any_eq_true]

/-! ## Behavior of add_entity call sequences (claim C2) -/

theorem addEntity_single (n t0 t : String) (c : Nat) (h : pyStrip n = n) :
    Graph.addEntity ⟨[⟨n, some t0, some c⟩], []⟩ n t = ⟨[⟨n, some t, some (c + 1)⟩], []⟩ := by
  simp [Graph.addEntity, h, Graph.hasNode]

theorem addMany_loop (n : String) (h : pyStrip n = n) :
    ∀ (ts : List String) (t0 : String) (c : Nat),
      ts.foldl (fun g t => Graph.addEntity g n t) ⟨[⟨n, some t0, some c⟩], []⟩ =
        ⟨[⟨n, some (ts.getLastD t0), some (c + ts.length)⟩], []⟩
  | [], t0, c => by simp
  | t :: ts, t0, c => by
    rw [List.foldl_cons, addEntity_single n t0 t c h, addMany_loop n h ts t (c + 1)]
    have hc : c + 1 + ts.length = c + (ts.length + 1) := by omega
    simp [List.getLastD_cons, getLast?_cons_eq, hc]

/-- C2, amended: `add_entity` is last-write-wins on the type, not a majority
vote.  After any nonempty sequence of `add_entity(n, t_i)` calls on a fresh
graph, the node for `n` has `type` equal to the type of the MOST RECENT call
(`ts.getLast?`) and `count` equal to the number of calls. -/
theorem C2_addEntity_last_type_wins (n : String) (ts : List String)
    (h1 : pyStrip n = n) (h2 : ts ≠ []) :
    (addMany n ts).findNode n = some ⟨n, ts.getLast?, some ts.length⟩ := by
  cases ts with
  | nil => exact absurd rfl h2
  | cons t ts =>
    unfold addMany
    rw [List.foldl_cons]
    have hfirst : Graph.addEntity Graph.empty n t = ⟨[⟨n, some t, some 1⟩], []⟩ := by
      simp [Graph.addEntity, h1, Graph.hasNode, Graph.empty]
    rw [hfirst, addMany_loop n h1 ts t 1]
    simp [Graph.findNode, getLast?_cons_eq, Nat.add_comm]

/-- Witness for the amended C2 theorem at the Arjuna example: five PERSON
observations followed by one ORG observation give the type of the last call
and count 6. -/
theorem C2_addEntity_last_type_wins_witness :
    pyStrip "Arjuna" = "Arjuna" ∧
      (addMany "Arjuna" ["PERSON", "PERSON", "PERSON", "PERSON", "PERSON", "ORG"]).findNode
          "Arjuna" =
        some ⟨"Arjuna", ["PERSON", "PERSON", "PERSON", "PERSON", "PERSON", "ORG"].getLast?,
          some 6⟩ :=
  ⟨by decide,
    C2_addEntity_last_type_wins "Arjuna" ["PERSON", "PERSON", "PERSON", "PERSON", "PERSON", "ORG"]
      (by decide) (by decide)⟩

/-- Counterexample to C2 as stated: adding "Arjuna" as PERSON five times and
then as ORG once yields type ORG (the last observation), not the majority
type PERSON claimed by the spec; the result is call-order dependent. -/
theorem C2_counterexample :
    (addMany "Arjuna" ["PERSON", "PERSON", "PERSON", "PERSON", "PERSON", "ORG"]).findNode
        "Arjuna" = some ⟨"Arjuna", some "ORG", some 6⟩ ∧
      ("ORG" : String) ≠ "PERSON" := by
  decide

/-! ## add_entity on whitespace-only input (claim C8) -/

/-- C8, amended: `add_entity` with a whitespace-only name does not raise, but
it is NOT a no-op: it adds (or, on repetition, updates) a node whose id is
the empty string — overwriting its type and incrementing its count exactly
like any other node. -/
theorem C8_empty_name_creates_empty_node (g : Graph) (s t : String)
    (h : pyStrip s = "") :
    (g.addEntity s t).findNode "" =
      some (match g.findNode "" with
            | some nd => { nd with type := some t, count := some (nd.count.getD 0 + 1) }
            | none => ⟨"", some t, some 1⟩) := by
  cases hF : g.findNode "" with
  | some nd =>
    have hF2 : g.nodes.find? (fun nd => nd.id == "") = some nd := hF
    have hmem := List.mem_of_find?_eq_some hF2
    have hpred : (nd.id == "") = true := by simpa using List.find?_some hF2
    have hN : g.hasNode "" = true :=
      (hasNode_iff g "").mpr ⟨nd, hmem, by simpa using hpred⟩
    have hid : nd.id = "" := by simpa using hpred
    simp only [Graph.addEntity, h, hN, if_true]
    unfold Graph.findNode
    rw [find?_map_pred _ _ (fun a => by cases ha : (a.id == "") <;> simp [ha])]
    rw [hF2]
    simp [hF, hid]
  | none =>
    have hN : g.hasNode "" = false := by
      rw [← Bool.not_eq_true]
      intro hc
      obtain ⟨nd, hm, hid⟩ := (hasNode_iff g "").mp hc
      have := List.find?_eq_none.mp hF nd hm
      simp [hid] at this
    simp only [Graph.addEntity, h, hN, Bool.false_eq_true, if_false]
    unfold Graph.findNode
    rw [List.find?_append]
    unfold Graph.findNode at hF
    simp [hF]

/-- Witness for the amended C8 theorem: on the empty graph, adding a
whitespace-only entity name creates the empty-string node. -/
theorem C8_empty_name_creates_empty_node_witness :
    pyStrip "   " = "" ∧
      (Graph.empty.addEntity "   " "PERSON").findNode "" =
        some (match Graph.empty.findNode "" with
              | some nd => { nd with type := some "PERSON", count := some (nd.count.getD 0 + 1) }
              | none => ⟨"", some "PERSON", some 1⟩) :=
  ⟨by decide, C8_empty_name_creates_empty_node Graph.empty "   " "PERSON" (by decide)⟩

/-- Counterexample to C8 as stated: `add_entity("   ", "PERSON")` on the
empty graph is not a no-op — it creates a node (with empty-string id). -/
theorem C8_counterexample :
    Graph.empty.addEntity "   " "PERSON" ≠ Graph.empty ∧
      (Graph.empty.addEntity "   " "PERSON").nodes =
        [⟨"", some "PERSON", some 1⟩] := by
  decide

/-! ## Behavior of add_relation on edges (claims C6 and C10) -/

theorem ensureNode_edges (g : Graph) (x : String) : (ensureNode g x).edges = g.edges := by
  unfold ensureNode; split <;> rfl

theorem ensureNode_hasEdge (g : Graph) (x s t : String) :
    (ensureNode g x).hasEdge s t = g.hasEdge s t := by
  unfold Graph.hasEdge; rw [ensureNode_edges]

/-- When the `(subject, obj)` edge exists, `add_relation` maps the edge list,
modifying only that edge — and only when the relation type is new. -/
theorem addRelation_edges_pos (g : Graph) (s r o : String) (c : Rat)
    (h : g.hasEdge (pyStrip s) (pyStrip o) = true) :
    (g.addRelation s r o c).edges = g.edges.map (fun e =>
      if e.source == pyStrip s && e.target == pyStrip o then
        if e.relations.contains r then e
        else { e with relations := e.relations ++ [r], count := e.count + 1 }
      else e) := by
  have h2 : (ensureNode (ensureNode g (pyStrip s)) (pyStrip o)).hasEdge
      (pyStrip s) (pyStrip o) = true := by
    rw [ensureNode_hasEdge, ensureNode_hasEdge]; exact h
  simp only [Graph.addRelation, h2, if_true]
  rw [ensureNode_edges, ensureNode_edges]

/-- When the `(subject, obj)` edge does not exist, `add_relation` appends a
fresh edge with the single relation type, count 1 and the given confidence. -/
theorem addRelation_edges_neg (g : Graph) (s r o : String) (c : Rat)
    (h : g.hasEdge (pyStrip s) (pyStrip o) = false) :
    (g.addRelation s r o c).edges =
      g.edges ++ [⟨pyStrip s, pyStrip o, [r], 1, c⟩] := by
  have h2 : (ensureNode (ensureNode g (pyStrip s)) (pyStrip o)).hasEdge
      (pyStrip s) (pyStrip o) = false := by
    rw [ensureNode_hasEdge, ensureNode_hasEdge]; exact h
  simp only [Graph.addRelation, h2, Bool.false_eq_true, if_false]
  rw [ensureNode_edges, ensureNode_edges]

/-- The per-edge update function of `add_relation` preserves endpoints. -/
theorem addRelation_updater_pred (s o r : String) (a : KGEdge) :
    ((if a.source == pyStrip s && a.target == pyStrip o then
        if a.relations.contains r then a
        else { a with relations := a.relations ++ [r], count := a.count + 1 }
      else a).source == pyStrip s &&
     (if a.source == pyStrip s && a.target == pyStrip o then
        if a.relations.contains r then a
        else { a with relations := a.relations ++ [r], count := a.count + 1 }
      else a).target == pyStrip o) =
    (a.source == pyStrip s && a.target == pyStrip o) := by
  cases hc : (a.source == pyStrip s && a.target == pyStrip o) <;>
    cases hr : a.relations.contains r <;> simp [hc, hr]

/-- Updating an existing edge: the stored edge afterwards is the old edge,
with the relation appended and the count incremented exactly when the
relation type was not yet present. -/
theorem addRelation_edgeBetween_pos (g : Graph) (s r o : String) (c : Rat)
    (e : KGEdge) (h : g.edgeBetween (pyStrip s) (pyStrip o) = some e) :
    (g.addRelation s r o c).edgeBetween (pyStrip s) (pyStrip o) =
      some (if e.relations.contains r then e
            else { e with relations := e.relations ++ [r], count := e.count + 1 }) := by
  have h2 : g.edges.find? (fun e => e.source == pyStrip s && e.target == pyStrip o) =
      some e := h
  have hmem := List.mem_of_find?_eq_some h2
  have hpred : (e.source == pyStrip s && e.target == pyStrip o) = true := by
    simpa using List.find?_some h2
  have hE : g.hasEdge (pyStrip s) (pyStrip o) = true := by
    unfold Graph.hasEdge
    rw [List.any_eq_true]
    exact ⟨e, hmem, hpred⟩
  obtain ⟨hs, ht⟩ : e.source = pyStrip s ∧ e.target = pyStrip o := by
    simpa using hpred
  unfold Graph.edgeBetween
  rw [addRelation_edges_pos g s r o c hE,
    find?_map_pred _ _ (addRelation_updater_pred s o r), h2]
  simp [hs, ht]

/-- Creating a missing edge: the stored edge afterwards carries exactly the
one relation type with count 1. -/
theorem addRelation_edgeBetween_neg (g : Graph) (s r o : String) (c : Rat)
    (h : g.edgeBetween (pyStrip s) (pyStrip o) = none) :
    (g.addRelation s r o c).edgeBetween (pyStrip s) (pyStrip o) =
      some ⟨pyStrip s, pyStrip o, [r], 1, c⟩ := by
  have h2 : g.edges.find? (fun e => e.source == pyStrip s && e.target == pyStrip o) =
      none := h
  have hE : g.hasEdge (pyStrip s) (pyStrip o) = false := by
    rw [← Bool.not_eq_true]
    intro hc
    obtain ⟨e, hm, hp⟩ := List.any_eq_true.mp hc
    exact absurd hp (by simpa using List.find?_eq_none.mp h2 e hm)
  unfold Graph.edgeBetween
  rw [addRelation_edges_neg g s r o c hE, List.find?_append, h2]
  simp

/-- C6, amended: `add_relation` on an existing `(subject, object)` edge
increments the occurrence count by 1 exactly when the relation type `r` is
not already in the relations list; when `r` is already present the edge is
left completely unchanged (the count is NOT incremented). -/
theorem C6_count_increment_only_for_new_type (g : Graph) (s r o : String)
    (c : Rat) (e : KGEdge)
    (h : g.edgeBetween (pyStrip s) (pyStrip o) = some e) :
    (g.addRelation s r o c).edgeBetween (pyStrip s) (pyStrip o) =
      some (if e.relations.contains r then e
            else { e with relations := e.relations ++ [r], count := e.count + 1 }) :=
  addRelation_edgeBetween_pos g s r o c e h

/-- Witness for the amended C6 theorem: a fresh edge updated once with a new
relation type and once with a duplicate one. -/
theorem C6_count_increment_only_for_new_type_witness :
    (Graph.empty.addRelation "A" "child_of" "B" 1).edgeBetween (pyStrip "A") (pyStrip "B") =
        some ⟨"A", "B", ["child_of"], 1, 1⟩ ∧
      ((Graph.empty.addRelation "A" "child_of" "B" 1).addRelation "A" "child_of" "B"
            1).edgeBetween (pyStrip "A") (pyStrip "B") =
        some (if (["child_of"] : List String).contains "child_of" then
                (⟨"A", "B", ["child_of"], 1, 1⟩ : KGEdge)
              else ⟨"A", "B", ["child_of", "child_of"], 2, 1⟩) :=
  ⟨rfl,
    C6_count_increment_only_for_new_type (Graph.empty.addRelation "A" "child_of" "B" 1)
      "A" "child_of" "B" 1 ⟨"A", "B", ["child_of"], 1, 1⟩ rfl⟩

/-- Counterexample to C6 as stated: repeating `add_relation(Abimanyu,
child_of, Arjuna)` leaves the edge count at 1 — the count is not incremented
when the relation type already exists on the edge, contrary to the claimed
"increments by exactly 1 on every call". -/
theorem C6_counterexample :
    ((Graph.empty.addRelation "Abimanyu" "child_of" "Arjuna" 1).addRelation
          "Abimanyu" "child_of" "Arjuna" 1).edgeBetween "Abimanyu" "Arjuna" =
        some ⟨"Abimanyu", "Arjuna", ["child_of"], 1, 1⟩ ∧
      (1 : Nat) ≠ 2 :=
  ⟨rfl, by decide⟩

/-- C10, amended: for every nonempty name `s`, `add_relation(s, r, s)`
succeeds and stores a self-loop edge `s → s` whose relations list contains
`r`: the graph layer does not reject self-relations (and neither does the
relation extractor — see the counterexample to C5). -/
theorem C10_self_loop_allowed (g : Graph) (s r : String) (c : Rat)
    (h : s ≠ "") :
    ∃ e, (g.addRelation s r s c).edgeBetween (pyStrip s) (pyStrip s) = some e ∧
      r ∈ e.relations := by
  cases hB : g.edgeBetween (pyStrip s) (pyStrip s) with
  | some e0 =>
    refine ⟨if e0.relations.contains r then e0
            else { e0 with relations := e0.relations ++ [r], count := e0.count + 1 },
      addRelation_edgeBetween_pos g s r s c e0 hB, ?_⟩
    cases hr : e0.relations.contains r with
    | true =>
      have hmem0 : r ∈ e0.relations := by simpa using hr
      simpa [hr] using hmem0
    | false => simp [hr]
  | none =>
    exact ⟨⟨pyStrip s, pyStrip s, [r], 1, c⟩,
      addRelation_edgeBetween_neg g s r s c hB, by simp⟩

/-- Witness for the amended C10 theorem at a concrete self-relation. -/
theorem C10_self_loop_allowed_witness :
    ∃ e, (Graph.empty.addRelation "Bima" "fought_with" "Bima" 1).edgeBetween
        (pyStrip "Bima") (pyStrip "Bima") = some e ∧ "fought_with" ∈ e.relations :=
  C10_self_loop_allowed Graph.empty "Bima" "fought_with" 1 (by decide)

/-! ## Entity resolution and relation extraction (claims C9, C5, C4, C10) -/

/-- C9, amended: when `_find_entity` resolves a span with NO exact
case-insensitive match, the containment branch accepts a candidate entity
exactly under the source condition
`len(entity_lower) >= len(text_lower) * 0.7` — the CANDIDATE ENTITY must be
at least 70 percent of the length of the MATCHED TEXT (the converse of the
direction stated in the claim). -/
theorem C9_containment_requires_entity_length (text : String) (ents : List Entity)
    (e : Entity)
    (hx : ents.find? (fun e2 => pyLower e2.text == pyLower text) = none)
    (hf : findEntity text ents = some e) :
    (pyContains (pyLower e.text) (pyLower text) ||
        pyContains (pyLower text) (pyLower e.text)) = true ∧
      10 * pyLen (pyLower e.text) ≥ 7 * pyLen (pyLower text) := by
  simp only [findEntity, hx] at hf
  have hp : ((pyContains (pyLower e.text) (pyLower text) ||
      pyContains (pyLower text) (pyLower e.text)) &&
      decide (10 * pyLen (pyLower e.text) ≥ 7 * pyLen (pyLower text))) = true := by
    simpa using List.find?_some hf
  simpa using hp

/-- Witness for the amended C9 theorem: the span "Arjun" (5 chars) resolves
to the entity "Arjuna" (6 chars) by containment, and 10·6 ≥ 7·5. -/
theorem C9_containment_requires_entity_length_witness :
    findEntity "Arjun" [⟨"Arjuna", "PERSON"⟩] = some ⟨"Arjuna", "PERSON"⟩ ∧
      ((pyContains (pyLower "Arjuna") (pyLower "Arjun") ||
          pyContains (pyLower "Arjun") (pyLower "Arjuna")) = true ∧
        10 * pyLen (pyLower "Arjuna") ≥ 7 * pyLen (pyLower "Arjun")) :=
  ⟨by decide,
    C9_containment_requires_entity_length "Arjun" [⟨"Arjuna", "PERSON"⟩]
      ⟨"Arjuna", "PERSON"⟩ (by decide) (by decide)⟩

/-- Counterexample to C9 as stated: the span "Ar" (2 chars) has no exact
match yet resolves to "Arjuna" (6 chars) by containment although the matched
text covers only 2/6 < 70 percent of the length of the entity — the claimed
direction of the threshold (`10·2 ≥ 7·6` fails) does not hold on the code. -/
theorem C9_counterexample :
    findEntity "Ar" [⟨"Arjuna", "PERSON"⟩] = some ⟨"Arjuna", "PERSON"⟩ ∧
      ([(⟨"Arjuna", "PERSON"⟩ : Entity)].find?
          (fun e2 => pyLower e2.text == pyLower "Ar") = none) ∧
      ¬ 10 * pyLen (pyLower "Ar") ≥ 7 * pyLen (pyLower "Arjuna") := by
  decide

/-- Processing a single pattern match whose two spans resolve to entities
`se` and `oe` yields exactly the one relation dict of the source code. -/
theorem extractText_single (m : PatternMatch) (ents : List Entity) (se oe : Entity)
    (h1 : findEntity m.subjectText ents = some se)
    (h2 : findEntity m.objectText ents = some oe) :
    extractRelationsFromText [m] ents =
      [⟨se.text, se.type, m.relationType, oe.text, oe.type, m.context, (0.8 : Rat)⟩] := by
  unfold extractRelationsFromText relationsFromMatches
  simp only [List.filterMap_cons, List.filterMap_nil, h1, h2]
  simp [deduplicateRelations, dedupAux]

/-- C5, amended: a pattern match whose captured subject span and captured
object span resolve to the SAME entity is NOT discarded:
`extract_relations_from_text` emits exactly one self-relation triple for that
match (there is no subject-equals-object check in the code). -/
theorem C5_self_relation_emitted (m : PatternMatch) (ents : List Entity) (e : Entity)
    (h1 : findEntity m.subjectText ents = some e)
    (h2 : findEntity m.objectText ents = some e) :
    extractRelationsFromText [m] ents =
      [⟨e.text, e.type, m.relationType, e.text, e.type, m.context, (0.8 : Rat)⟩] :=
  extractText_single m ents e e h1 h2

/-- Witness for the amended C5 theorem: the `sibling_of` pattern
`(\w+...)\s+(?:kakak|adik|saudara)\s+(?:dari\s+)?(\w+...)` on
"Srikandi saudara Srikandi" captures the spans "Srikandi" / "Srikandi",
both resolving to the same entity, and one self-triple is emitted. -/
theorem C5_self_relation_emitted_witness :
    findEntity "Srikandi" [⟨"Srikandi", "PERSON"⟩] = some ⟨"Srikandi", "PERSON"⟩ ∧
      extractRelationsFromText
          [⟨"sibling_of", "Srikandi", "Srikandi", "Srikandi saudara Srikandi"⟩]
          [⟨"Srikandi", "PERSON"⟩] =
        [⟨"Srikandi", "PERSON", "sibling_of", "Srikandi", "PERSON",
          "Srikandi saudara Srikandi", (0.8 : Rat)⟩] :=
  ⟨by decide,
    C5_self_relation_emitted
      ⟨"sibling_of", "Srikandi", "Srikandi", "Srikandi saudara Srikandi"⟩
      [⟨"Srikandi", "PERSON"⟩] ⟨"Srikandi", "PERSON"⟩ (by decide) (by decide)⟩

/-- Counterexample to C5 as stated: on "Arjuna melawan Arjuna" the
`fought_with` pattern `(\w+...)\s+melawan\s+(\w+...)` captures
"Arjuna" / "Arjuna"; both resolve to the same entity, yet
`extract_relations_from_text` emits ONE triple (with subject = object), not
the claimed zero. -/
theorem C5_counterexample :
    extractRelationsFromText
        [⟨"fought_with", "Arjuna", "Arjuna", "Arjuna melawan Arjuna"⟩]
        [⟨"Arjuna", "PERSON"⟩] =
      [⟨"Arjuna", "PERSON", "fought_with", "Arjuna", "PERSON",
        "Arjuna melawan Arjuna", (0.8 : Rat)⟩] ∧
      (1 : Nat) ≠ 0 :=
  ⟨rfl, by decide⟩

/-- C4, amended: a match of a `married_to` pattern (a symmetric relation
type) whose spans resolve to entities `se` and `oe` yields exactly ONE
triple `(se, married_to, oe)` after the reverse-derivation step:
`_add_reverse_relations` skips relation types that are their own inverse, so
no `(oe, married_to, se)` triple is ever produced — neither a second nor a
third. -/
theorem C4_symmetric_emits_one_triple (m : PatternMatch) (ents : List Entity)
    (se oe : Entity) (h0 : m.relationType = "married_to")
    (h1 : findEntity m.subjectText ents = some se)
    (h2 : findEntity m.objectText ents = some oe) :
    addReverseRelations (extractRelationsFromText [m] ents) =
      [⟨se.text, se.type, "married_to", oe.text, oe.type, m.context, (0.8 : Rat)⟩] := by
  rw [extractText_single m ents se oe h1 h2, h0]
  rfl

/-- Witness for the amended C4 theorem at the spec example
"Arjuna menikah dengan Subadra". -/
theorem C4_symmetric_emits_one_triple_witness :
    findEntity "Arjuna" [⟨"Arjuna", "PERSON"⟩, ⟨"Subadra", "PERSON"⟩] =
        some ⟨"Arjuna", "PERSON"⟩ ∧
      addReverseRelations (extractRelationsFromText
          [⟨"married_to", "Arjuna", "Subadra", "Arjuna menikah dengan Subadra"⟩]
          [⟨"Arjuna", "PERSON"⟩, ⟨"Subadra", "PERSON"⟩]) =
        [⟨"Arjuna", "PERSON", "married_to", "Subadra", "PERSON",
          "Arjuna menikah dengan Subadra", (0.8 : Rat)⟩] :=
  ⟨by decide,
    C4_symmetric_emits_one_triple
      ⟨"married_to", "Arjuna", "Subadra", "Arjuna menikah dengan Subadra"⟩
      [⟨"Arjuna", "PERSON"⟩, ⟨"Subadra", "PERSON"⟩]
      ⟨"Arjuna", "PERSON"⟩ ⟨"Subadra", "PERSON"⟩ rfl (by decide) (by decide)⟩

/-- Counterexample to C4 as stated: the full
`extract_relations_from_entities` pipeline on "Arjuna menikah dengan
Subadra" (whose only pattern match is the first `married_to` pattern with
groups "Arjuna" / "Subadra") returns exactly ONE triple, and the claimed
second triple `(Subadra, married_to, Arjuna)` is not in the output. -/
theorem C4_counterexample :
    extractRelationsFromEntities
        [⟨"married_to", "Arjuna", "Subadra", "Arjuna menikah dengan Subadra"⟩]
        "Arjuna menikah dengan Subadra"
        [⟨"Arjuna", "PERSON"⟩, ⟨"Subadra", "PERSON"⟩] =
      [⟨"Arjuna", "PERSON", "married_to", "Subadra", "PERSON",
        "Arjuna menikah dengan Subadra", (0.8 : Rat)⟩] ∧
      (⟨"Subadra", "PERSON", "married_to", "Arjuna", "PERSON",
          "Arjuna menikah dengan Subadra", (0.8 : Rat)⟩ : Relation) ∉
        [(⟨"Arjuna", "PERSON", "married_to", "Subadra", "PERSON",
          "Arjuna menikah dengan Subadra", (0.8 : Rat)⟩ : Relation)] :=
  ⟨rfl, fun hmem => by
    rw [List.mem_singleton] at hmem
    exact absurd (congrArg Relation.subject hmem) (by decide)⟩

/-- Counterexample to C10 as stated (its final clause): a self-relation
policy exists in NO layer.  The graph layer stores the self-loop
`Bima → Bima`, and the relation resolver also emits a self-triple for the
`fought_with` pattern match on "Bima melawan Bima" — so the policy does not
exist "only in the relation resolver"; it does not exist there either. -/
theorem C10_counterexample :
    (Graph.empty.addRelation "Bima" "fought_with" "Bima" 1).edgeBetween "Bima" "Bima" =
        some ⟨"Bima", "Bima", ["fought_with"], 1, 1⟩ ∧
      extractRelationsFromText [⟨"fought_with", "Bima", "Bima", "Bima melawan Bima"⟩]
          [⟨"Bima", "PERSON"⟩] =
        [⟨"Bima", "PERSON", "fought_with", "Bima", "PERSON", "Bima melawan Bima",
          (0.8 : Rat)⟩] :=
  ⟨rfl, rfl⟩

/-! ## The 1-level ego view (claim C3) -/

theorem mem_keysInOrder (x : String) (l : List String) :
    x ∈ keysInOrder l ↔ x ∈ l := by
  simp [keysInOrder]

theorem mem_successors (g : Graph) (c v : String) :
    v ∈ g.successors c ↔ g.hasEdge c v = true := by
  simp only [Graph.successors, Graph.hasEdge, List.mem_map, List.mem_filter,
    List.any_eq_true, Bool.and_eq_true, beq_iff_eq]
  constructor
  · rintro ⟨e, ⟨hm, hs⟩, ht⟩
    exact ⟨e, hm, hs, ht⟩
  · rintro ⟨e, hm, hs, ht⟩
    exact ⟨e, ⟨hm, hs⟩, ht⟩

theorem mem_predecessors (g : Graph) (c u : String) :
    u ∈ g.predecessors c ↔ g.hasEdge u c = true := by
  simp only [Graph.predecessors, Graph.hasEdge, List.mem_map, List.mem_filter,
    List.any_eq_true, Bool.and_eq_true, beq_iff_eq]
  constructor
  · rintro ⟨e, ⟨hm, ht⟩, hs⟩
    exact ⟨e, hm, hs, ht⟩
  · rintro ⟨e, hm, hs, ht⟩
    exact ⟨e, ⟨hm, ht⟩, hs⟩

/-- C3, confirmed: for every graph and every entity present in it, the
1-level ego view contains exactly the center plus its direct successors and
predecessors, and its edge set is exactly the set of edges incident to the
center — an edge between two neighbors of the center is never included. -/
theorem C3_ego_view_exact (g : Graph) (c : String) (ev : EgoView)
    (h : egoView g c = some ev) :
    (∀ x, x ∈ ev.nodes ↔ x = c ∨ g.hasEdge c x = true ∨ g.hasEdge x c = true) ∧
      (∀ p : String × String, p ∈ ev.edges ↔
        g.hasEdge p.1 p.2 = true ∧ (p.1 = c ∨ p.2 = c)) := by
  unfold egoView at h
  by_cases hN : g.hasNode c = true
  case neg =>
    rw [if_neg hN] at h
    exact absurd h (by simp)
  case pos =>
    rw [if_pos hN] at h
    injection h with h
    subst h
    constructor
    · intro x
      simp [mem_keysInOrder, mem_successors, mem_predecessors]
    · rintro ⟨p1, p2⟩
      simp only [List.mem_append, List.mem_map, mem_successors, mem_predecessors,
        Prod.mk.injEq]
      constructor
      · rintro (⟨nb, hnb, hc, hv⟩ | ⟨nb, hnb, hv, hc⟩)
        · subst hc; subst hv
          exact ⟨hnb, Or.inl rfl⟩
        · subst hc; subst hv
          exact ⟨hnb, Or.inr rfl⟩
      · rintro ⟨hE, hc | hc⟩
        · subst hc
          exact Or.inl ⟨p2, hE, rfl, rfl⟩
        · subst hc
          exact Or.inr ⟨p1, hE, rfl, rfl⟩

/-- Witness for the C3 theorem at the spec example graph with edges A→B,
A→C, B→C: the ego view of A is {A, B, C} with edges {A→B, A→C}, and the
neighbor-neighbor edge B→C is excluded although it is in the graph. -/
theorem C3_ego_view_exact_witness :
    egoView (((Graph.empty.addRelation "A" "rab" "B" 1).addRelation "A" "rac" "C"
          1).addRelation "B" "rbc" "C" 1) "A" =
        some ⟨["A", "B", "C"], [("A", "B"), ("A", "C")]⟩ ∧
      ((("B", "C") : String × String) ∈
          (⟨["A", "B", "C"], [("A", "B"), ("A", "C")]⟩ : EgoView).edges ↔
        (((Graph.empty.addRelation "A" "rab" "B" 1).addRelation "A" "rac" "C"
              1).addRelation "B" "rbc" "C" 1).hasEdge "B" "C" = true ∧
          (("B" : String) = "A" ∨ ("C" : String) = "A")) :=
  ⟨by decide,
    (C3_ego_view_exact
        (((Graph.empty.addRelation "A" "rab" "B" 1).addRelation "A" "rac" "C"
          1).addRelation "B" "rbc" "C" 1) "A"
        ⟨["A", "B", "C"], [("A", "B"), ("A", "C")]⟩ (by decide)).2 ("B", "C")⟩

/-! ## from_json error behavior (claim C7) -/

/-- C7, amended: `from_json` on a document whose first node entry lacks the
required `id` field fails with an error (`KeyError`), but the previously
loaded graph state is NOT preserved: the graph is cleared before any
validation happens, so the state left behind is the empty graph regardless
of the prior state — the result of the call is entirely independent of the
previous graph. -/
theorem C7_import_error_clears_state (g g2 : Graph) (doc : JDoc)
    (jn : JNode) (rest : List JNode)
    (h1 : doc.nodes = some (jn :: rest)) (h2 : jn.id = none) :
    fromJson g doc = LoadResult.err Graph.empty ∧
      fromJson g doc = fromJson g2 doc := by
  unfold fromJson
  rw [h1]
  simp [loadNodes, h2]

/-- Witness for the amended C7 theorem: importing a document whose node
entry has no `id` over a one-node graph errors out with the empty graph as
the surviving state. -/
theorem C7_import_error_clears_state_witness :
    fromJson (Graph.empty.addEntity "Arjuna" "PERSON")
        ⟨some [⟨none, none, none, none⟩], some [], none⟩ =
        LoadResult.err Graph.empty ∧
      fromJson (Graph.empty.addEntity "Arjuna" "PERSON")
          ⟨some [⟨none, none, none, none⟩], some [], none⟩ =
        fromJson Graph.empty ⟨some [⟨none, none, none, none⟩], some [], none⟩ :=
  C7_import_error_clears_state (Graph.empty.addEntity "Arjuna" "PERSON") Graph.empty
    ⟨some [⟨none, none, none, none⟩], some [], none⟩ ⟨none, none, none, none⟩ [] rfl rfl

/-- Counterexample to C7 as stated: after the failing import the state is
the empty graph, which differs from the previously loaded one-node graph —
the import is not all-or-nothing. -/
theorem C7_counterexample :
    fromJson (Graph.empty.addEntity "Arjuna" "PERSON")
        ⟨some [⟨none, none, none, none⟩], some [], none⟩ =
        LoadResult.err Graph.empty ∧
      Graph.empty ≠ Graph.empty.addEntity "Arjuna" "PERSON" := by
  decide

/-! ## Well-formedness of API-built graphs (claim C1) -/

theorem some_getD_of_isSome {α : Type} (o : Option α) (d : α)
    (h : o.isSome = true) : some (o.getD d) = o := by
  cases o with
  | none => simp at h
  | some v => rfl

theorem hasNode_nodes_map (g : Graph) (f : KGNode → KGNode)
    (hf : ∀ nd, (f nd).id = nd.id) (x : String) :
    Graph.hasNode { g with nodes := g.nodes.map f } x = g.hasNode x := by
  simp [Graph.hasNode, List.any_map, Function.comp_def, hf]

theorem hasNode_nodes_append (g : Graph) (new : List KGNode) (x : String) :
    Graph.hasNode { g with nodes := g.nodes ++ new } x =
      (g.hasNode x || new.any (fun nd => nd.id == x)) := by
  simp [Graph.hasNode]

theorem WF_addEntity (g : Graph) (n t : String) (h : WF g) :
    WF (g.addEntity n t) := by
  unfold Graph.addEntity
  by_cases hN : g.hasNode (pyStrip n) = true
  case pos =>
    rw [if_pos hN]
    have hid : ∀ nd : KGNode,
        ((if nd.id == pyStrip n then
            { nd with type := some t, count := some (nd.count.getD 0 + 1) }
          else nd) : KGNode).id = nd.id := by
      intro nd; split <;> rfl
    refine ⟨?_, ?_, h.nodupPairs, ?_⟩
    · have : (g.nodes.map (fun nd =>
          if nd.id == pyStrip n then
            { nd with type := some t, count := some (nd.count.getD 0 + 1) }
          else nd)).map KGNode.id = g.nodes.map KGNode.id := by
        rw [List.map_map]
        exact List.map_congr_left (fun nd _ => hid nd)
      rw [this]
      exact h.nodupIds
    · intro e he
      obtain ⟨hs, ht⟩ := h.endpoints e he
      rw [hasNode_nodes_map g _ hid e.source, hasNode_nodes_map g _ hid e.target]
      exact ⟨hs, ht⟩
    · intro nd hnd
      obtain ⟨nd0, hnd0, hf⟩ := List.mem_map.mp hnd
      by_cases hc : (nd0.id == pyStrip n) = true
      · rw [if_pos hc] at hf
        rw [← hf]
        exact ⟨rfl, rfl⟩
      · rw [if_neg hc] at hf
        rw [← hf]
        exact h.attrs nd0 hnd0
  case neg =>
    rw [if_neg hN]
    have hfresh : ∀ nd ∈ g.nodes, nd.id ≠ pyStrip n := by
      intro nd hm hc
      exact hN ((hasNode_iff g (pyStrip n)).mpr ⟨nd, hm, hc⟩)
    refine ⟨?_, ?_, h.nodupPairs, ?_⟩
    · rw [List.map_append, List.nodup_append]
      refine ⟨h.nodupIds, by simp, ?_⟩
      intro a ha hb
      simp only [List.map_cons, List.map_nil, List.mem_singleton] at hb
      obtain ⟨nd, hm, hia⟩ := List.mem_map.mp ha
      exact hfresh nd hm (by rw [hia, hb])
    · intro e he
      obtain ⟨hs, ht⟩ := h.endpoints e he
      rw [hasNode_nodes_append, hasNode_nodes_append, hs, ht]
      exact ⟨rfl, rfl⟩
    · intro nd hnd
      rcases List.mem_append.mp hnd with hm | hm
      · exact h.attrs nd hm
      · rw [List.mem_singleton.mp hm]
        exact ⟨rfl, rfl⟩

theorem ensureNode_nodes_of_hasNode (g : Graph) (x : String)
    (h : g.hasNode x = true) : ensureNode g x = g := by
  unfold ensureNode
  rw [if_pos h]

theorem WF_ensureNode (g : Graph) (x : String) (h : WF g) :
    WF (ensureNode g x) := by
  unfold ensureNode
  by_cases hN : g.hasNode x = true
  case pos => rw [if_pos hN]; exact h
  case neg =>
    rw [if_neg hN]
    have hfresh : ∀ nd ∈ g.nodes, nd.id ≠ x := by
      intro nd hm hc
      exact hN ((hasNode_iff g x).mpr ⟨nd, hm, hc⟩)
    refine ⟨?_, ?_, h.nodupPairs, ?_⟩
    · rw [List.map_append, List.nodup_append]
      refine ⟨h.nodupIds, by simp, ?_⟩
      intro a ha hb
      simp only [List.map_cons, List.map_nil, List.mem_singleton] at hb
      obtain ⟨nd, hm, hia⟩ := List.mem_map.mp ha
      exact hfresh nd hm (by rw [hia, hb])
    · intro e he
      obtain ⟨hs, ht⟩ := h.endpoints e he
      rw [hasNode_nodes_append, hasNode_nodes_append, hs, ht]
      exact ⟨rfl, rfl⟩
    · intro nd hnd
      rcases List.mem_append.mp hnd with hm | hm
      · exact h.attrs nd hm
      · rw [List.mem_singleton.mp hm]
        exact ⟨rfl, rfl⟩

theorem ensureNode_hasNode_self (g : Graph) (x : String) :
    (ensureNode g x).hasNode x = true := by
  unfold ensureNode
  by_cases hN : g.hasNode x = true
  case pos => rw [if_pos hN]; exact hN
  case neg =>
    rw [if_neg hN, hasNode_nodes_append]
    simp

theorem ensureNode_hasNode_mono (g : Graph) (x y : String)
    (h : g.hasNode y = true) : (ensureNode g x).hasNode y = true := by
  unfold ensureNode
  by_cases hN : g.hasNode x = true
  case pos => rw [if_pos hN]; exact h
  case neg =>
    rw [if_neg hN, hasNode_nodes_append, h]
    rfl

theorem WF_addRelation (g : Graph) (s r o : String) (c : Rat) (h : WF g) :
    WF (g.addRelation s r o c) := by
  unfold Graph.addRelation
  have h2 : WF (ensureNode (ensureNode g (pyStrip s)) (pyStrip o)) :=
    WF_ensureNode _ _ (WF_ensureNode _ _ h)
  have hns : (ensureNode (ensureNode g (pyStrip s)) (pyStrip o)).hasNode (pyStrip s) = true :=
    ensureNode_hasNode_mono _ _ _ (ensureNode_hasNode_self g (pyStrip s))
  have hno : (ensureNode (ensureNode g (pyStrip s)) (pyStrip o)).hasNode (pyStrip o) = true :=
    ensureNode_hasNode_self _ _
  set g2 := ensureNode (ensureNode g (pyStrip s)) (pyStrip o) with hg2
  by_cases hE : g2.hasEdge (pyStrip s) (pyStrip o) = true
  case pos =>
    rw [if_pos hE]
    have hpair : ∀ e : KGEdge,
        ((if e.source == pyStrip s && e.target == pyStrip o then
            if e.relations.contains r then e
            else { e with relations := e.relations ++ [r], count := e.count + 1 }
          else e) : KGEdge).source = e.source ∧
        ((if e.source == pyStrip s && e.target == pyStrip o then
            if e.relations.contains r then e
            else { e with relations := e.relations ++ [r], count := e.count + 1 }
          else e) : KGEdge).target = e.target := by
      intro e
      constructor <;> (split <;> first | rfl | (split <;> rfl))
    refine ⟨h2.nodupIds, ?_, ?_, h2.attrs⟩
    · intro e he
      obtain ⟨e0, he0, hf⟩ := List.mem_map.mp he
      have hsrc := (hpair e0).1
      have htgt := (hpair e0).2
      rw [← hf]
      have hep := h2.endpoints e0 he0
      show Graph.hasNode g2 _ = true ∧ Graph.hasNode g2 _ = true
      rw [hsrc, htgt]
      exact hep
    · have : (g2.edges.map (fun e =>
          if e.source == pyStrip s && e.target == pyStrip o then
            if e.relations.contains r then e
            else { e with relations := e.relations ++ [r], count := e.count + 1 }
          else e)).map (fun e => (e.source, e.target)) =
            g2.edges.map (fun e => (e.source, e.target)) := by
        rw [List.map_map]
        refine List.map_congr_left (fun e _ => ?_)
        simp only [Function.comp_apply]
        rw [(hpair e).1, (hpair e).2]
      rw [this]
      exact h2.nodupPairs
  case neg =>
    rw [if_neg hE]
    have hfresh : ∀ e ∈ g2.edges, (e.source, e.target) ≠ (pyStrip s, pyStrip o) := by
      intro e hm hc
      apply hE
      rw [hasEdge_iff]
      exact ⟨e, hm, congrArg Prod.fst hc, congrArg Prod.snd hc⟩
    refine ⟨h2.nodupIds, ?_, ?_, h2.attrs⟩
    · intro e he
      rcases List.mem_append.mp he with hm | hm
      · exact h2.endpoints e hm
      · rw [List.mem_singleton.mp hm]
        exact ⟨hns, hno⟩
    · rw [List.map_append, List.nodup_append]
      refine ⟨h2.nodupPairs, by simp, ?_⟩
      intro a ha hb
      simp only [List.map_cons, List.map_nil, List.mem_singleton] at hb
      obtain ⟨e, hm, hpa⟩ := List.mem_map.mp ha
      exact hfresh e hm (by rw [hpa, hb])

theorem WF_empty : WF Graph.empty :=
  ⟨List.nodup_nil, fun e he => absurd he (List.not_mem_nil e),
    List.nodup_nil, fun nd hnd => absurd hnd (List.not_mem_nil nd)⟩

theorem WF_built (g : Graph) (h : Built g) : WF g := by
  induction h with
  | empty => exact WF_empty
  | addEntity g0 n t _ ih => exact WF_addEntity g0 n t ih
  | addRelation g0 s r o c _ ih => exact WF_addRelation g0 s r o c ih

/-! ## Lossless reload of an exported document (claim C1) -/

theorem beq_pair_false (a b x y : String) (hne : (a, b) ≠ (x, y)) :
    ((a == x) && (b == y)) = false := by
  by_cases h1 : a = x
  · by_cases h2 : b = y
    · exact absurd (by rw [h1, h2]) hne
    · simp [h2]
  · simp [h1]

theorem loadNodes_ok (ns : List KGNode) : ∀ (g0 : Graph),
    (∀ nd ∈ ns, nd.type.isSome ∧ nd.count.isSome) →
    (∀ nd ∈ ns, g0.hasNode nd.id = false) →
    (ns.map KGNode.id).Nodup →
    loadNodes g0 (ns.map (fun nd =>
      { id := some nd.id, label := some nd.id,
        type := some (nd.type.getD "UNKNOWN"), count := some (nd.count.getD 0) })) =
      LoadResult.ok ⟨g0.nodes ++ ns, g0.edges⟩ := by
  induction ns with
  | nil =>
    intro g0 _ _ _
    simp [loadNodes]
  | cons nd ns ih =>
    intro g0 hattr hfresh hnodup
    have hN : g0.hasNode nd.id = false := hfresh nd (by simp)
    have hty : some (nd.type.getD "UNKNOWN") = nd.type :=
      some_getD_of_isSome _ _ (hattr nd (by simp)).1
    have hct : some (nd.count.getD 0) = nd.count :=
      some_getD_of_isSome _ _ (hattr nd (by simp)).2
    have hnd : ({ id := nd.id,
                  type := some (nd.type.getD "UNKNOWN"),
                  count := some (nd.count.getD 0) } : KGNode) = nd := by
      rw [hty, hct]
    have hstep : g0.nxAddNode nd.id (nd.type.getD "UNKNOWN") (nd.count.getD 0) =
        ⟨g0.nodes ++ [nd], g0.edges⟩ := by
      unfold Graph.nxAddNode
      rw [if_neg (by rw [hN]; exact Bool.false_ne_true)]
      rw [hnd]
    have hmemid : nd.id ∉ ns.map KGNode.id := (List.nodup_cons.mp hnodup).1
    have hrec := ih ⟨g0.nodes ++ [nd], g0.edges⟩
      (fun nd2 h2 => hattr nd2 (by simp [h2]))
      (fun nd2 h2 => by
        have h1 : g0.hasNode nd2.id = false := hfresh nd2 (by simp [h2])
        have h3 : nd.id ≠ nd2.id := by
          intro hc
          exact hmemid (hc ▸ List.mem_map_of_mem KGNode.id h2)
        rw [hasNode_nodes_append g0 [nd] nd2.id, h1]
        simp [h3])
      (List.nodup_cons.mp hnodup).2
    rw [List.map_cons]
    simp only [loadNodes, Option.getD_some]
    rw [hstep, hrec]
    simp [List.append_assoc]

theorem loadEdges_ok (es : List KGEdge) : ∀ (g0 : Graph),
    (∀ e ∈ es, g0.hasNode e.source = true ∧ g0.hasNode e.target = true) →
    (∀ e ∈ es, g0.hasEdge e.source e.target = false) →
    (es.map (fun e => (e.source, e.target))).Nodup →
    loadEdges g0 (es.map (fun e =>
      { source := some e.source, target := some e.target,
        relations := some e.relations, count := some e.count,
        confidence := some e.confidence })) =
      LoadResult.ok ⟨g0.nodes, g0.edges ++ es⟩ := by
  induction es with
  | nil =>
    intro g0 _ _ _
    simp [loadEdges]
  | cons e es ih =>
    intro g0 hnode hfresh hnodup
    have hs : g0.hasNode e.source = true := (hnode e (by simp)).1
    have ht : g0.hasNode e.target = true := (hnode e (by simp)).2
    have hE : g0.hasEdge e.source e.target = false := hfresh e (by simp)
    have hstep : g0.nxAddEdge e.source e.target e.relations e.count e.confidence =
        ⟨g0.nodes, g0.edges ++ [e]⟩ := by
      unfold Graph.nxAddEdge
      simp [hs, ht, hE]
    have hmempair : (e.source, e.target) ∉ es.map (fun e => (e.source, e.target)) :=
      (List.nodup_cons.mp hnodup).1
    have hrec := ih ⟨g0.nodes, g0.edges ++ [e]⟩
      (fun e2 h2 => hnode e2 (by simp [h2]))
      (fun e2 h2 => by
        have h1 : g0.hasEdge e2.source e2.target = false := hfresh e2 (by simp [h2])
        have h3 : ((e.source == e2.source) && (e.target == e2.target)) = false := by
          apply beq_pair_false
          intro hc
          exact hmempair (hc ▸ List.mem_map_of_mem (fun e => (e.source, e.target)) h2)
        show ((g0.edges ++ [e]).any fun e3 => e3.source == e2.source && e3.target == e2.target) = false
        rw [List.any_append]
        have h1b : (g0.edges.any fun e3 => e3.source == e2.source && e3.target == e2.target) = false := h1
        rw [h1b, List.any_cons, List.any_nil, h3]
        rfl)
      (List.nodup_cons.mp hnodup).2
    rw [List.map_cons]
    simp only [loadEdges, Option.getD_some]
    rw [hstep, hrec]
    simp [List.append_assoc]

/-- C1, amended: for every NONEMPTY graph built through the public API,
`to_json` succeeds (produces a document) and re-importing that document
succeeds and reconstructs a graph whose `get_statistics()` dictionary equals
the original one field for field.  (On the empty graph `to_json` raises
inside `get_statistics` — see the counterexample — so no round trip
happens there.) -/
theorem C1_json_roundtrip_statistics (g : Graph) (hB : Built g)
    (hne : g.nodes ≠ []) :
    ∃ doc g2, g.toJson = some doc ∧ fromJson g doc = LoadResult.ok g2 ∧
      g2.getStatistics = g.getStatistics := by
  have hw := WF_built g hB
  have hbs : (weaklyConnected g.nodes g.edges).isSome = true := by
    cases hn : g.nodes with
    | nil => exact absurd hn hne
    | cons nd rest => rfl
  obtain ⟨b, hb⟩ := Option.isSome_iff_exists.mp hbs
  have hst : g.getStatistics = some (statsWith g.nodes g.edges b) := by
    unfold Graph.getStatistics
    rw [hb]
  have htj : g.toJson = some
      { nodes := some (g.nodes.map (fun nd =>
          { id := some nd.id, label := some nd.id,
            type := some (nd.type.getD "UNKNOWN"), count := some (nd.count.getD 0) }))
        edges := some (g.edges.map (fun e =>
          { source := some e.source, target := some e.target,
            relations := some e.relations, count := some e.count,
            confidence := some e.confidence }))
        statistics := some (statsWith g.nodes g.edges b) } := by
    unfold Graph.toJson
    rw [hst]
  refine ⟨_, g, htj, ?_, rfl⟩
  · unfold fromJson
    simp only []
    rw [loadNodes_ok g.nodes Graph.empty hw.attrs (fun nd _ => rfl) hw.nodupIds]
    have hnodes : (⟨Graph.empty.nodes ++ g.nodes, Graph.empty.edges⟩ : Graph) =
        ⟨g.nodes, []⟩ := by
      simp [Graph.empty]
    rw [hnodes]
    dsimp only
    rw [loadEdges_ok g.edges ⟨g.nodes, []⟩ (fun e he => hw.endpoints e he)
      (fun e _ => rfl) hw.nodupPairs]
    simp

/-- Witness for the amended C1 theorem at a concrete API-built graph (two
typed entities and one relation, as in the module self-test of
graph_builder.py). -/
theorem C1_json_roundtrip_statistics_witness :
    ∃ doc g2,
      (((Graph.empty.addEntity "Abimanyu" "PERSON").addEntity "Arjuna"
          "PERSON").addRelation "Abimanyu" "child_of" "Arjuna" (0.9 : Rat)).toJson =
        some doc ∧
      fromJson
          (((Graph.empty.addEntity "Abimanyu" "PERSON").addEntity "Arjuna"
              "PERSON").addRelation "Abimanyu" "child_of" "Arjuna" (0.9 : Rat)) doc =
        LoadResult.ok g2 ∧
      g2.getStatistics =
        (((Graph.empty.addEntity "Abimanyu" "PERSON").addEntity "Arjuna"
            "PERSON").addRelation "Abimanyu" "child_of" "Arjuna" (0.9 : Rat)).getStatistics :=
  C1_json_roundtrip_statistics
    (((Graph.empty.addEntity "Abimanyu" "PERSON").addEntity "Arjuna"
        "PERSON").addRelation "Abimanyu" "child_of" "Arjuna" (0.9 : Rat))
    (Built.addRelation _ _ _ _ _ (Built.addEntity _ _ _ (Built.addEntity _ _ _ Built.empty)))
    (by decide)

/-- Counterexample to C1 as stated: the empty graph is built via the public
API (zero calls), yet `to_json` on it produces no document — the embedded
`get_statistics()` call raises `NetworkXPointlessConcept` from
`nx.is_weakly_connected` on the null graph — so the claimed round trip does
not even start there. -/
theorem C1_counterexample :
    Built Graph.empty ∧ Graph.empty.toJson = none :=
  ⟨Built.empty, rfl⟩
